import Mathlib

/-!
Shallow embedding of `src/marrow/mailer/manager/dynamic.py`.

The module implements a self-scaling thread pool:
`thread_worker` (the worker loop run on each thread), `WorkItem` (a unit of
work paired with its future), `ScalingPoolExecutor` (a
`concurrent.futures.ThreadPoolExecutor` subclass with proportional scaling)
and `DynamicManager` (the lifecycle object).

Modelling conventions:
* Machine-level values are `Nat`; the configured `timeout` is a float in the
  source but is only ever compared, passed around and used as a countdown
  start, so an integer-valued non-negative configuration is modelled exactly.
* The blocking queue is a `List` (FIFO); `none` is the shutdown sentinel,
  `some w` a genuine work item.
* A worker thread's interaction with the queue is a trace of fetch outcomes
  (`WEvent`): each `jobs.get(True, timeout)` call either times out (raising
  `Empty`), yields the sentinel `None` (together with the result of resolving
  the executor weak reference at that moment), yields a work item, or raises
  an unhandled exception (modelling any failure of the loop control logic).
* Fallible Python code is embedded with `Except PyError`.
* Thread identities are `Nat`s; the executor carries `nextId`, a supply of
  fresh identities standing for the freshness of `Thread()` objects.
-/

/-- The Python exceptions relevant to this module: `ZeroDivisionError` from
`self._work_queue.qsize() / float(self.divisor)` with a zero divisor,
`RuntimeError` from submitting after shutdown, and `InvalidStateError` from
resolving a future twice. -/
inductive PyError where
  | zeroDivision
  | runtime
  | invalidState
  deriving DecidableEq, Repr

/-- States of a `concurrent.futures.Future`: pending, cancelled, running, or
finished with a result or with an exception. -/
inductive FutureState (α ε : Type) where
  | pending
  | cancelled
  | running
  | finishedResult (a : α)
  | finishedExc (e : ε)
  deriving DecidableEq, Repr

/-- Modelled from the spec: the result-handle operation that marks a future as
running, or reports that it was already cancelled (the `Future` class is the
standard library's `concurrent.futures.Future`, not under `src/`; the spec
describes it as "supporting resolution (once), cancellation (before
running)"). Returns the updated state and `true` when the work may run,
`false` when the future was already cancelled. -/
def setRunningOrNotifyCancel {α ε : Type} :
    FutureState α ε → Except PyError (FutureState α ε × Bool)
  | FutureState.pending => Except.ok (FutureState.running, true)
  | FutureState.cancelled => Except.ok (FutureState.cancelled, false)
  | _ => Except.error PyError.invalidState

/-- Modelled from the spec: resolving the future with a result ("resolution
(once)"); a second resolution attempt raises. -/
def setResult {α ε : Type} (f : FutureState α ε) (r : α) :
    Except PyError (FutureState α ε) :=
  match f with
  | FutureState.pending => Except.ok (FutureState.finishedResult r)
  | FutureState.running => Except.ok (FutureState.finishedResult r)
  | _ => Except.error PyError.invalidState

/-- Modelled from the spec: resolving the future with an exception; a second
resolution attempt raises. -/
def setException {α ε : Type} (f : FutureState α ε) (e : ε) :
    Except PyError (FutureState α ε) :=
  match f with
  | FutureState.pending => Except.ok (FutureState.finishedExc e)
  | FutureState.running => Except.ok (FutureState.finishedExc e)
  | _ => Except.error PyError.invalidState

/-- A `WorkItem` pairs a future with a callable. The callable's application to
its stored `args`/`kwargs` is embedded by its outcome: `Except.ok r` when
`self.fn(*self.args, **self.kwargs)` returns `r`, `Except.error e` when it
raises `e`. -/
structure WorkItem (α ε : Type) where
  future : FutureState α ε
  fn : Except ε α

/-- Embedding of `WorkItem.run` (dynamic.py lines 69-81): first
`set_running_or_notify_cancel`; on `False` return immediately; otherwise call
the function, and `set_exception` on a raise, `set_result` on a normal
return. The returned `Bool` records whether the callable was invoked. -/
def WorkItem.run {α ε : Type} (w : WorkItem α ε) :
    Except PyError (WorkItem α ε × Bool) :=
  match setRunningOrNotifyCancel w.future with
  | Except.error e => Except.error e
  | Except.ok (f1, false) => Except.ok ({ w with future := f1 }, false)
  | Except.ok (f1, true) =>
    match w.fn with
    | Except.error e =>
      match setException f1 e with
      | Except.error e2 => Except.error e2
      | Except.ok f2 => Except.ok ({ w with future := f2 }, true)
    | Except.ok r =>
      match setResult f1 r with
      | Except.error e2 => Except.error e2
      | Except.ok f2 => Except.ok ({ w with future := f2 }, true)

/-- One outcome of a `jobs.get(True, timeout)` call inside the worker loop:
a timeout (the queue raised `Empty`), the sentinel `None` together with the
weak reference resolution at that moment (`none` when the executor was
collected, `some sd` when it exists with `_shutdown = sd`), a genuine work
item, or an unhandled exception in the loop control logic. -/
inductive WEvent (α : Type) where
  | timeout
  | sentinel (runner : Option Bool)
  | item (w : α)
  | fatal
  deriving DecidableEq, Repr

/-- How a worker loop terminated: starvation (`Empty` timeout), an observed
shutdown via a sentinel, exhaustion of the iteration counter, or an unhandled
exception caught at the top level of `thread_worker`. -/
inductive ExitReason where
  | starvation
  | sentinelShutdown
  | exhaustion
  | fatalError
  deriving DecidableEq, Repr

/-- Result of the `while i:` loop of `thread_worker` (dynamic.py lines
25-50): the work items executed via `work.run()` in order, the exit reason,
and the number of loop iterations entered. -/
structure WorkerResult (α : Type) where
  executed : List α
  exitReason : ExitReason
  iterations : Nat
  deriving DecidableEq, Repr

/-- Embedding of the `while i:` loop of `thread_worker`: `i` is decremented
on entry to each iteration; a timeout breaks with starvation; a sentinel
breaks when the weak reference is dead or the executor is shutting down and
otherwise continues; a work item is run and the loop continues; when `i`
reaches zero the `else:` clause reports exhaustion. An exhausted trace means
no further queue activity, so the blocking wait times out. -/
def workerLoop {α : Type} : Nat → List (WEvent α) → WorkerResult α
  | 0, _ => { executed := [], exitReason := ExitReason.exhaustion, iterations := 0 }
  | _ + 1, [] => { executed := [], exitReason := ExitReason.starvation, iterations := 1 }
  | n + 1, ev :: rest =>
    match ev with
    | WEvent.timeout =>
      { executed := [], exitReason := ExitReason.starvation, iterations := 1 }
    | WEvent.fatal =>
      { executed := [], exitReason := ExitReason.fatalError, iterations := 1 }
    | WEvent.sentinel none =>
      { executed := [], exitReason := ExitReason.sentinelShutdown, iterations := 1 }
    | WEvent.sentinel (some true) =>
      { executed := [], exitReason := ExitReason.sentinelShutdown, iterations := 1 }
    | WEvent.sentinel (some false) =>
      let r := workerLoop n rest
      { executed := r.executed, exitReason := r.exitReason, iterations := r.iterations + 1 }
    | WEvent.item w =>
      let r := workerLoop n rest
      { executed := w :: r.executed, exitReason := r.exitReason, iterations := r.iterations + 1 }

/-- Result of a whole `thread_worker` call: the loop outcome, the bound
passed to every blocking `jobs.get(True, timeout)` call, and the executor's
thread set after the worker's self-removal (`None` when the final weak
reference resolution failed). -/
structure ThreadWorkerResult (α : Type) where
  loop : WorkerResult α
  waitBound : Nat
  finalThreads : Option (Finset Nat)
  deriving DecidableEq

/-- Embedding of `thread_worker(executor, jobs, timeout, maximum)`
(dynamic.py lines 21-57): runs the loop with counter starting at
`maximum + 1`, waits on the queue with bound `timeout`, and afterwards — on
every exit path, the `except:` clause included — resolves the weak reference
(`executorFinal`) and, when the executor still exists, discards the current
thread (`self`) from its `_threads` set. -/
def thread_worker {α : Type} (executorFinal : Option (Finset Nat))
    (jobs : List (WEvent α)) (timeout maximum : Nat) (self : Nat) :
    ThreadWorkerResult α :=
  { loop := workerLoop (maximum + 1) jobs
    waitBound := timeout
    finalThreads := executorFinal.map (fun ts => ts.erase self) }

/-- State of a `ScalingPoolExecutor` (dynamic.py lines 84-128). The fields
`max_workers`, `work_queue`, `threads` and `shutdownFlag` embed the inherited
`_max_workers`, `_work_queue`, `_threads` and `_shutdown` of the standard
library's `ThreadPoolExecutor`; `divisor` and `timeout` are set by
`ScalingPoolExecutor.__init__`. `nextId` supplies fresh thread identities. -/
structure ScalingPoolExecutor (α : Type) where
  max_workers : Nat
  divisor : Nat
  timeout : Nat
  work_queue : List (Option α)
  threads : Finset Nat
  shutdownFlag : Bool
  nextId : Nat
  deriving DecidableEq

/-- Embedding of `ScalingPoolExecutor.__init__(workers, divisor, timeout)`:
stores `divisor` and `timeout` and delegates to the standard
`ThreadPoolExecutor.__init__`, which sets `_max_workers = workers`, an empty
queue, an empty thread set and a cleared shutdown flag. -/
def ScalingPoolExecutor.new (α : Type) (workers divisor timeout : Nat) :
    ScalingPoolExecutor α :=
  { max_workers := workers
    divisor := divisor
    timeout := timeout
    work_queue := []
    threads := ∅
    shutdownFlag := false
    nextId := 0 }

/-- Ceiling division on naturals: for `d ≥ 1` this is exactly
`math.ceil(n / float(d))`. -/
def ceilDiv (n d : Nat) : Nat := (n + d - 1) / d

/-- Embedding of the `_optimum_workers` property (dynamic.py lines 126-128):
`min(self._max_workers, math.ceil(self._work_queue.qsize() / float(self.divisor)))`.
Python float division raises `ZeroDivisionError` when the divisor is zero;
there is no zero-guard in the source. -/
def ScalingPoolExecutor.optimumWorkers {α : Type} (e : ScalingPoolExecutor α) :
    Except PyError Nat :=
  if e.divisor = 0 then Except.error PyError.zeroDivision
  else Except.ok (min e.max_workers (ceilDiv e.work_queue.length e.divisor))

/-- The steps `_spawn` performs, in program order (dynamic.py lines 108-114):
create the thread with `args = (weakref.ref(self), self._work_queue,
self.divisor, self.timeout)`, start it, then take the management lock and add
it to `self._threads`. -/
inductive SpawnStep where
  | threadCreate (timeoutArg maximumArg : Nat)
  | threadStart
  | lockAcquire
  | registerThread
  | lockRelease
  deriving DecidableEq, Repr

/-- The ordered sequence of steps performed by one `_spawn` call. -/
def ScalingPoolExecutor.spawnSteps {α : Type} (e : ScalingPoolExecutor α) :
    List SpawnStep :=
  [ SpawnStep.threadCreate e.divisor e.timeout
  , SpawnStep.threadStart
  , SpawnStep.lockAcquire
  , SpawnStep.registerThread
  , SpawnStep.lockRelease ]

/-- The claim that some `registerThread` step precedes the `threadStart` step
in a spawn sequence (the worker is registered before its thread may run). -/
def registeredBeforeStart (steps : List SpawnStep) : Prop :=
  ∃ i : Fin steps.length, ∃ j : Fin steps.length,
    i.val < j.val ∧ steps.get i = SpawnStep.registerThread ∧
    steps.get j = SpawnStep.threadStart

/-- The opposite ordering: some `threadStart` step precedes a
`registerThread` step. -/
def startedBeforeRegistration (steps : List SpawnStep) : Prop :=
  ∃ i : Fin steps.length, ∃ j : Fin steps.length,
    i.val < j.val ∧ steps.get i = SpawnStep.threadStart ∧
    steps.get j = SpawnStep.registerThread

/-- The positional arguments of the `Thread(target=thread_worker, args=...)`
call in `_spawn`, named by the `thread_worker` parameters they are bound to:
`args[2]` binds to the parameter `timeout`, `args[3]` to `maximum`. -/
structure SpawnArgs where
  timeout : Nat
  maximum : Nat
  deriving DecidableEq, Repr

/-- At the `_spawn` call site (dynamic.py line 109) the tuple passed is
`(weakref.ref(self), self._work_queue, self.divisor, self.timeout)`: the
executor's `divisor` lands in the `timeout` slot and its `timeout` in the
`maximum` slot. -/
def ScalingPoolExecutor.spawnArgs {α : Type} (e : ScalingPoolExecutor α) :
    SpawnArgs :=
  { timeout := e.divisor, maximum := e.timeout }

/-- The run of the worker thread created by `_spawn`: `thread_worker` applied
to the arguments of the spawn call site. -/
def ScalingPoolExecutor.spawnedWorkerRun {α β : Type} (e : ScalingPoolExecutor α)
    (jobs : List (WEvent β)) (executorFinal : Option (Finset Nat)) (self : Nat) :
    ThreadWorkerResult β :=
  thread_worker executorFinal jobs e.spawnArgs.timeout e.spawnArgs.maximum self

/-- State effect of one `_spawn` call: a fresh thread is created and added to
`self._threads` under the management lock. -/
def ScalingPoolExecutor.spawn {α : Type} (e : ScalingPoolExecutor α) :
    ScalingPoolExecutor α :=
  { e with threads := insert e.nextId e.threads, nextId := e.nextId + 1 }

/-- Sequential composition of `k` `_spawn` calls, as performed by the
`for i in range(tospawn)` loop of `_adjust_thread_count`. -/
def ScalingPoolExecutor.spawnN {α : Type} : Nat → ScalingPoolExecutor α → ScalingPoolExecutor α
  | 0, e => e
  | k + 1, e => ScalingPoolExecutor.spawnN k e.spawn

/-- Embedding of `_adjust_thread_count` (dynamic.py lines 116-124): read
`pool = len(self._threads)`; when `pool < self._optimum_workers` spawn
`optimum - pool` new workers. Evaluating the property with a zero divisor
raises `ZeroDivisionError`. -/
def ScalingPoolExecutor.adjustThreadCount {α : Type} (e : ScalingPoolExecutor α) :
    Except PyError (ScalingPoolExecutor α) :=
  let pool := e.threads.card
  match e.optimumWorkers with
  | Except.error err => Except.error err
  | Except.ok opt =>
    if pool < opt then Except.ok (ScalingPoolExecutor.spawnN (opt - pool) e)
    else Except.ok e

/-- Embedding of `ScalingPoolExecutor.shutdown(wait)` (dynamic.py lines
94-103): under the shutdown lock, set `_shutdown` and put one `None` sentinel
per thread in `self._threads`; then, when `wait` holds, join every thread in
`list(self._threads)`. Returns the new state together with the set of
threads joined. -/
def ScalingPoolExecutor.shutdown {α : Type} (e : ScalingPoolExecutor α)
    (wait : Bool) : ScalingPoolExecutor α × Finset Nat :=
  let e2 : ScalingPoolExecutor α :=
    { e with shutdownFlag := true
             work_queue := e.work_queue ++ List.replicate e.threads.card none }
  (e2, if wait then e2.threads else ∅)

/-- Modelled from the spec: `submit` is inherited from the standard library's
`ThreadPoolExecutor` (not under `src/`); per the spec it "constructs a Work
Item with a fresh result-handle, enqueues it, invokes the scaling adjustment,
and returns the result-handle" and "fails by raising if called after shutdown
has been initiated". On success the new state is returned (the fresh pending
future is the enqueued item's handle); on a raise the error carries the state
at the raise point, since the enqueue precedes the scaling adjustment. -/
def ScalingPoolExecutor.submit {α : Type} (e : ScalingPoolExecutor α) (item : α) :
    Except (PyError × ScalingPoolExecutor α) (ScalingPoolExecutor α) :=
  if e.shutdownFlag then Except.error (PyError.runtime, e)
  else
    let e1 : ScalingPoolExecutor α := { e with work_queue := e.work_queue ++ [some item] }
    match e1.adjustThreadCount with
    | Except.error err => Except.error (err, e1)
    | Except.ok e2 => Except.ok e2

/-- The configuration dictionary as read by `DynamicManager.__init__`:
`config.get(key, default)` yields the stored value or the default. -/
structure MailerConfig where
  workers : Option Nat
  divisor : Option Nat
  timeout : Option Nat
  deriving DecidableEq, Repr

/-- The manager attributes set by `DynamicManager.__init__` (dynamic.py lines
137-140): `workers = config.get('workers', 10)`,
`divisor = config.get('divisor', 10)`, `timeout = config.get('timeout', 60)`,
with no validation of any of them. -/
structure DynamicManager where
  workers : Nat
  divisor : Nat
  timeout : Nat
  deriving DecidableEq, Repr

/-- Embedding of `DynamicManager.__init__(config, transport)` restricted to
the numeric configuration (the transport pool is an external collaborator). -/
def DynamicManager.init (config : MailerConfig) : DynamicManager :=
  { workers := config.workers.getD 10
    divisor := config.divisor.getD 10
    timeout := config.timeout.getD 60 }

/-- Embedding of the executor construction in `DynamicManager.startup`
(dynamic.py line 155): `self.Executor(workers, self.divisor, self.timeout)`. -/
def DynamicManager.startupExecutor (m : DynamicManager) (α : Type) :
    ScalingPoolExecutor α :=
  ScalingPoolExecutor.new α m.workers m.divisor m.timeout

/-- Freshness of the thread-identity supply: every registered thread identity
was drawn before `nextId`. This captures that distinct `Thread()` objects are
distinct set elements. -/
def threadsFresh {α : Type} (e : ScalingPoolExecutor α) : Prop :=
  ∀ t ∈ e.threads, t < e.nextId

/-- A freshly started executor with the default configuration, used as a
concrete instance. -/
def exBase : ScalingPoolExecutor Nat := ScalingPoolExecutor.new Nat 10 10 60

/-- The concrete scenario of the spec: `workers = 2`, `divisor = 5`, eleven
items in the queue, no live workers yet. -/
def exScale : ScalingPoolExecutor Nat :=
  { max_workers := 2
    divisor := 5
    timeout := 60
    work_queue := List.replicate 11 (some 0)
    threads := ∅
    shutdownFlag := false
    nextId := 0 }

/-- An executor whose configuration set `divisor = 0`, as
`DynamicManager.__init__` accepts without validation. -/
def exDivZero : ScalingPoolExecutor Nat :=
  (DynamicManager.init { workers := some 10, divisor := some 0, timeout := some 60 }).startupExecutor Nat

/-! Helper lemmas about the worker loop and the spawning loop. -/

theorem workerLoop_iterations_le {α : Type} :
    ∀ (n : Nat) (tr : List (WEvent α)), (workerLoop n tr).iterations ≤ n := by
  intro n
  induction n with
  | zero => intro tr; simp [workerLoop]
  | succ n ih =>
    intro tr
    cases tr with
    | nil => simp [workerLoop]
    | cons ev rest =>
      cases ev with
      | timeout => simp [workerLoop]
      | fatal => simp [workerLoop]
      | item w =>
        have h := ih rest
        simp only [workerLoop]
        omega
      | sentinel r =>
        cases r with
        | none => simp [workerLoop]
        | some b =>
          cases b with
          | true => simp [workerLoop]
          | false =>
            have h := ih rest
            simp only [workerLoop]
            omega

theorem workerLoop_items_exhaustion {α : Type} :
    ∀ (n : Nat) (tr : List (WEvent α)),
      (∀ ev ∈ tr, ∃ w, ev = WEvent.item w) → n ≤ tr.length →
      (workerLoop n tr).exitReason = ExitReason.exhaustion ∧
      (workerLoop n tr).iterations = n := by
  intro n
  induction n with
  | zero => intro tr _ _; simp [workerLoop]
  | succ n ih =>
    intro tr hall hlen
    cases tr with
    | nil => simp at hlen
    | cons ev rest =>
      obtain ⟨w, rfl⟩ := hall ev (by simp)
      have h := ih rest (fun e he => hall e (by simp [he])) (by simpa using hlen)
      simp [workerLoop, h.1, h.2]

theorem workerLoop_consumes_items {α : Type} :
    ∀ (ws : List α) (n : Nat) (rest : List (WEvent α)), ws.length < n →
      workerLoop n (ws.map WEvent.item ++ rest) =
      { executed := ws ++ (workerLoop (n - ws.length) rest).executed
        exitReason := (workerLoop (n - ws.length) rest).exitReason
        iterations := (workerLoop (n - ws.length) rest).iterations + ws.length } := by
  intro ws
  induction ws with
  | nil => intro n rest _; simp
  | cons w ws ih =>
    intro n rest hlen
    cases n with
    | zero => omega
    | succ n =>
      have h := ih n rest (by simpa using hlen)
      have hsub : n + 1 - (w :: ws).length = n - ws.length := by
        simp
      simp [workerLoop, h, hsub]
      omega

theorem spawnN_fields {α : Type} :
    ∀ (k : Nat) (e : ScalingPoolExecutor α),
      (ScalingPoolExecutor.spawnN k e).work_queue = e.work_queue ∧
      (ScalingPoolExecutor.spawnN k e).max_workers = e.max_workers ∧
      (ScalingPoolExecutor.spawnN k e).divisor = e.divisor ∧
      (ScalingPoolExecutor.spawnN k e).timeout = e.timeout ∧
      (ScalingPoolExecutor.spawnN k e).shutdownFlag = e.shutdownFlag ∧
      (ScalingPoolExecutor.spawnN k e).nextId = e.nextId + k := by
  intro k
  induction k with
  | zero => intro e; simp [ScalingPoolExecutor.spawnN]
  | succ k ih =>
    intro e
    have h := ih e.spawn
    simp [ScalingPoolExecutor.spawnN, ScalingPoolExecutor.spawn] at h ⊢
    refine ⟨h.1, h.2.1, h.2.2.1, h.2.2.2.1, h.2.2.2.2.1, ?_⟩
    omega

theorem spawnN_card {α : Type} :
    ∀ (k : Nat) (e : ScalingPoolExecutor α), threadsFresh e →
      (ScalingPoolExecutor.spawnN k e).threads.card = e.threads.card + k ∧
      threadsFresh (ScalingPoolExecutor.spawnN k e) ∧
      e.threads ⊆ (ScalingPoolExecutor.spawnN k e).threads := by
  intro k
  induction k with
  | zero =>
    intro e hf
    exact ⟨rfl, hf, Finset.Subset.refl _⟩
  | succ k ih =>
    intro e hf
    have hnm : e.nextId ∉ e.threads := fun hm => absurd (hf _ hm) (by omega)
    have hf2 : threadsFresh e.spawn := by
      intro t ht
      simp [ScalingPoolExecutor.spawn] at ht
      rcases ht with h | h
      · simp [ScalingPoolExecutor.spawn, h]
      · have := hf t h
        simp [ScalingPoolExecutor.spawn]
        omega
    have h := ih e.spawn hf2
    have hcard : e.spawn.threads.card = e.threads.card + 1 := by
      simp [ScalingPoolExecutor.spawn, Finset.card_insert_of_not_mem hnm]
    refine ⟨?_, h.2.1, ?_⟩
    · simp [ScalingPoolExecutor.spawnN, h.1, hcard]
      omega
    · refine Finset.Subset.trans ?_ h.2.2
      simp [ScalingPoolExecutor.spawn]

theorem adjustThreadCount_ok {α : Type} (e : ScalingPoolExecutor α)
    (hdiv : 1 ≤ e.divisor) :
    e.adjustThreadCount =
      Except.ok
        (if e.threads.card < min e.max_workers (ceilDiv e.work_queue.length e.divisor)
         then ScalingPoolExecutor.spawnN
           (min e.max_workers (ceilDiv e.work_queue.length e.divisor) - e.threads.card) e
         else e) := by
  have hd0 : ¬ e.divisor = 0 := by omega
  by_cases hlt :
      e.threads.card < min e.max_workers (ceilDiv e.work_queue.length e.divisor)
  · simp [ScalingPoolExecutor.adjustThreadCount, ScalingPoolExecutor.optimumWorkers, hd0, hlt]
  · simp [ScalingPoolExecutor.adjustThreadCount, ScalingPoolExecutor.optimumWorkers, hd0, hlt]

/-! Claim theorems. -/

/-- C1: at the call site that spawns a worker thread (`_spawn`), the
executor's `divisor` attribute is passed into the `thread_worker` parameter
named `timeout` (the blocking-wait bound on the queue) and the executor's
`timeout` attribute into the parameter named `maximum` (the starvation
iteration budget): every spawned worker loop waits on the queue with bound
`divisor` and runs with iteration budget `timeout`. -/
theorem spawn_call_site_swaps_divisor_and_timeout
    (e : ScalingPoolExecutor Nat) (jobs : List (WEvent Nat))
    (executorFinal : Option (Finset Nat)) (self : Nat) :
    e.spawnArgs.timeout = e.divisor ∧
    e.spawnArgs.maximum = e.timeout ∧
    (e.spawnedWorkerRun jobs executorFinal self).waitBound = e.divisor ∧
    (e.spawnedWorkerRun jobs executorFinal self).loop =
      workerLoop (e.timeout + 1) jobs :=
  ⟨rfl, rfl, rfl, rfl⟩

/-- C3: for a work item whose future is still pending (not cancelled),
`run()` resolves the future exactly once — with the callable's exact return
value on a normal return, and with the exact raised exception (never a
result) on a raise; the exception is captured inside `run()`, whose own
outcome is a normal return (`Except.ok`), and a second resolution of the
finished future would raise. -/
theorem workitem_run_resolves_exactly_once {α ε : Type}
    (w : WorkItem α ε) (hp : w.future = FutureState.pending) :
    (∀ r : α, w.fn = Except.ok r →
      w.run = Except.ok ({ w with future := FutureState.finishedResult r }, true) ∧
      (∀ r2 : α, setResult (FutureState.finishedResult r : FutureState α ε) r2 =
        Except.error PyError.invalidState)) ∧
    (∀ ex : ε, w.fn = Except.error ex →
      w.run = Except.ok ({ w with future := FutureState.finishedExc ex }, true) ∧
      (∀ ex2 : ε, setException (FutureState.finishedExc ex : FutureState α ε) ex2 =
        Except.error PyError.invalidState)) := by
  constructor
  · intro r hr
    refine ⟨?_, fun r2 => rfl⟩
    simp [WorkItem.run, hp, hr, setRunningOrNotifyCancel, setResult]
  · intro ex hex
    refine ⟨?_, fun ex2 => rfl⟩
    simp [WorkItem.run, hp, hex, setRunningOrNotifyCancel, setException]

/-- Witness for C3 at concrete work items: a callable returning `7` resolves
the pending future with the result `7`, and one raising `3` resolves it with
the exception `3`. -/
theorem workitem_run_resolves_exactly_once_witness :
    WorkItem.run { future := FutureState.pending, fn := Except.ok 7 } =
      Except.ok (({ future := FutureState.finishedResult 7, fn := Except.ok 7 } :
        WorkItem Nat Nat), true) ∧
    WorkItem.run { future := FutureState.pending, fn := Except.error 3 } =
      Except.ok (({ future := FutureState.finishedExc 3, fn := Except.error 3 } :
        WorkItem Nat Nat), true) := by
  constructor
  · exact ((workitem_run_resolves_exactly_once
      { future := FutureState.pending, fn := Except.ok 7 } rfl).1 7 rfl).1
  · exact ((workitem_run_resolves_exactly_once
      { future := FutureState.pending, fn := Except.error 3 } rfl).2 3 rfl).1

/-- C4: for a work item whose future was already cancelled when it is
dequeued, `set_running_or_notify_cancel` reports `False` and `run()` returns
immediately: the callable is never invoked (the `Bool` is `false`), the
future is left in its cancelled state (no result, no exception), and `run()`
itself returns normally with no other effect on the item. -/
theorem workitem_run_cancelled_skips {α ε : Type}
    (w : WorkItem α ε) (hc : w.future = FutureState.cancelled) :
    w.run = Except.ok (w, false) := by
  cases w with
  | mk fu fn =>
    cases hc
    rfl

/-- Witness for C4: a cancelled work item whose callable would return `7` is
returned unchanged with the callable not invoked. -/
theorem workitem_run_cancelled_skips_witness :
    WorkItem.run { future := FutureState.cancelled, fn := Except.ok 7 } =
      Except.ok (({ future := FutureState.cancelled, fn := Except.ok 7 } :
        WorkItem Nat Nat), false) :=
  workitem_run_cancelled_skips { future := FutureState.cancelled, fn := Except.ok 7 } rfl

/-- C5: `shutdown(wait)` sets the shutdown flag, appends exactly one sentinel
(`None`) per currently-live worker to the queue, leaves the thread set
untouched and, when `wait` is true, joins exactly the live worker threads
before returning; a second call is again a total function (it cannot raise),
leaves the flag set and spawns no new workers. -/
theorem shutdown_spec (e : ScalingPoolExecutor Nat) (wait : Bool) :
    (e.shutdown wait).1.shutdownFlag = true ∧
    (e.shutdown wait).1.work_queue =
      e.work_queue ++ List.replicate e.threads.card none ∧
    (e.shutdown wait).1.threads = e.threads ∧
    (wait = true → (e.shutdown wait).2 = e.threads) ∧
    ((e.shutdown wait).1.shutdown wait).1.threads = e.threads ∧
    ((e.shutdown wait).1.shutdown wait).1.shutdownFlag = true := by
  refine ⟨rfl, rfl, rfl, ?_, rfl, rfl⟩
  intro h
  subst h
  rfl

/-- Witness for C5 at the default executor with `wait = true`. -/
theorem shutdown_spec_witness :
    (exBase.shutdown true).2 = exBase.threads :=
  (shutdown_spec exBase true).2.2.2.1 rfl

/-- C9: on every exit path of the worker loop — the exit reason is arbitrary,
and in particular an unhandled exception (`WEvent.fatal`) caught at the loop's
top level is covered — the worker removes its own thread from the executor's
live-worker set whenever the executor's weak reference still resolves, so the
terminated worker is never counted in the resulting live-worker set; when the
weak reference is dead no removal is attempted. -/
theorem thread_worker_self_removal (timeout maximum self : Nat)
    (jobs : List (WEvent Nat)) (ts : Finset Nat) :
    (thread_worker (some ts) jobs timeout maximum self).finalThreads =
      some (ts.erase self) ∧
    self ∉ ts.erase self ∧
    (thread_worker none jobs timeout maximum self).finalThreads = none ∧
    (jobs.head? = some WEvent.fatal →
      (thread_worker (some ts) jobs timeout maximum self).loop.exitReason =
        ExitReason.fatalError) := by
  refine ⟨rfl, Finset.not_mem_erase _ _, rfl, ?_⟩
  intro h
  cases jobs with
  | nil => simp at h
  | cons ev rest =>
    simp at h
    subst h
    simp [thread_worker, workerLoop]

/-- Witness for C9: a worker dying from an unhandled exception still removes
its thread `3` from the live set `{3}`. -/
theorem thread_worker_self_removal_witness :
    (thread_worker (some {3}) [WEvent.fatal (α := Nat)] 10 60 3).loop.exitReason =
      ExitReason.fatalError ∧
    (thread_worker (some {3}) [WEvent.fatal (α := Nat)] 10 60 3).finalThreads =
      some (({3} : Finset Nat).erase 3) := by
  constructor
  · exact (thread_worker_self_removal 10 60 3 [WEvent.fatal] {3}).2.2.2 rfl
  · exact (thread_worker_self_removal 10 60 3 [WEvent.fatal] {3}).1

/-- C2: `_adjust_thread_count` computes `optimum = min(max_workers,
ceil(queue_depth / divisor))` and, whenever the current live-worker count is
strictly below this optimum, spawns exactly `optimum - current` new workers
(the resulting count is exactly the optimum); when the count is not below the
optimum nothing changes; consequently a live-worker count within the
configured maximum stays within it. -/
theorem adjust_thread_count_scaling (e : ScalingPoolExecutor Nat)
    (hfresh : threadsFresh e) (hdiv : 1 ≤ e.divisor) :
    ∃ e2, e.adjustThreadCount = Except.ok e2 ∧
      (e.threads.card < min e.max_workers (ceilDiv e.work_queue.length e.divisor) →
        e2.threads.card = min e.max_workers (ceilDiv e.work_queue.length e.divisor)) ∧
      (min e.max_workers (ceilDiv e.work_queue.length e.divisor) ≤ e.threads.card →
        e2 = e) ∧
      (e.threads.card ≤ e.max_workers → e2.threads.card ≤ e.max_workers) := by
  have hadj := adjustThreadCount_ok e hdiv
  by_cases hlt :
      e.threads.card < min e.max_workers (ceilDiv e.work_queue.length e.divisor)
  · rw [hadj, if_pos hlt]
    have hc := (spawnN_card
      (min e.max_workers (ceilDiv e.work_queue.length e.divisor) - e.threads.card)
      e hfresh).1
    have hminle :
        min e.max_workers (ceilDiv e.work_queue.length e.divisor) ≤ e.max_workers :=
      Nat.min_le_left _ _
    refine ⟨_, rfl, fun _ => by omega, fun hle => by omega, fun _ => by omega⟩
  · rw [hadj, if_neg hlt]
    exact ⟨e, rfl, fun h => absurd h hlt, fun _ => rfl, fun h => h⟩

/-- Witness for C2 at the spec's concrete scenario: `workers = 2`,
`divisor = 5`, eleven queued items and no live workers; the adjustment
succeeds and exactly `min 2 (ceil (11 / 5)) = 2` workers exist afterwards. -/
theorem adjust_thread_count_scaling_witness :
    ∃ e2, exScale.adjustThreadCount = Except.ok e2 ∧ e2.threads.card = 2 := by
  obtain ⟨e2, h1, h2, _, _⟩ := adjust_thread_count_scaling exScale
    (by intro t ht; simp [exScale] at ht) (by decide)
  refine ⟨e2, h1, ?_⟩
  rw [h2 (by decide)]
  decide

/-- Counterexample for C6: on the executor `exDivZero` (constructed through
`DynamicManager.__init__` with the accepted configuration `divisor = 0`) and
before any shutdown, `submit` does not return a future: it raises
`ZeroDivisionError` out of the scaling adjustment, and by then the item has
already been enqueued. -/
theorem submit_before_shutdown_raises_cex :
    exDivZero.shutdownFlag = false ∧
    exDivZero.submit 5 =
      Except.error (PyError.zeroDivision,
        { exDivZero with work_queue := [some 5] }) :=
  ⟨rfl, rfl⟩

/-- C6 amended: submitting after shutdown has been initiated raises
synchronously and does not enqueue the item; before shutdown, provided the
divisor is nonzero, `submit` enqueues the item and returns normally (with the
fresh future as the enqueued item's handle); with a zero divisor, `submit`
before shutdown raises `ZeroDivisionError` from the scaling adjustment after
the item has already been enqueued. -/
theorem submit_spec (e : ScalingPoolExecutor Nat) (x : Nat) :
    (e.shutdownFlag = true → e.submit x = Except.error (PyError.runtime, e)) ∧
    (e.shutdownFlag = false → 1 ≤ e.divisor →
      ∃ e2, e.submit x = Except.ok e2 ∧
        e2.work_queue = e.work_queue ++ [some x]) ∧
    (e.shutdownFlag = false → e.divisor = 0 →
      e.submit x = Except.error (PyError.zeroDivision,
        { e with work_queue := e.work_queue ++ [some x] })) := by
  refine ⟨?_, ?_, ?_⟩
  · intro h
    simp [ScalingPoolExecutor.submit, h]
  · intro h hdiv
    obtain ⟨e2, he2, hq2⟩ : ∃ e2,
        ({ e with work_queue := e.work_queue ++ [some x] } :
          ScalingPoolExecutor Nat).adjustThreadCount = Except.ok e2 ∧
        e2.work_queue = e.work_queue ++ [some x] := by
      have hadj := adjustThreadCount_ok
        ({ e with work_queue := e.work_queue ++ [some x] }) (by simpa using hdiv)
      rw [hadj]
      by_cases hlt :
          ({ e with work_queue := e.work_queue ++ [some x] } :
            ScalingPoolExecutor Nat).threads.card <
          min ({ e with work_queue := e.work_queue ++ [some x] } :
              ScalingPoolExecutor Nat).max_workers
            (ceilDiv ({ e with work_queue := e.work_queue ++ [some x] } :
              ScalingPoolExecutor Nat).work_queue.length
              ({ e with work_queue := e.work_queue ++ [some x] } :
              ScalingPoolExecutor Nat).divisor)
      · rw [if_pos hlt]
        exact ⟨_, rfl, by rw [(spawnN_fields _ _).1]⟩
      · rw [if_neg hlt]
        exact ⟨_, rfl, rfl⟩
    refine ⟨e2, ?_, hq2⟩
    simp only [ScalingPoolExecutor.submit, h] at he2 ⊢
    rw [he2]
    simp
  · intro h hd
    simp [ScalingPoolExecutor.submit, ScalingPoolExecutor.adjustThreadCount,
      ScalingPoolExecutor.optimumWorkers, h, hd]

/-- Witness for C6 amended: on the default executor, before shutdown,
submitting `7` succeeds and the item is enqueued. -/
theorem submit_spec_witness :
    ∃ e2, exBase.submit 7 = Except.ok e2 ∧ e2.work_queue = [some 7] := by
  obtain ⟨e2, h1, h2⟩ := (submit_spec exBase 7).2.1 rfl (by decide)
  exact ⟨e2, h1, by simpa [exBase, ScalingPoolExecutor.new] using h2⟩

/-- C8: a worker loop with iteration budget parameter `maximum` terminates
after at most `maximum + 1` iterations (the counter starts at `maximum + 1`
and is decremented once per iteration); after any run of fewer than
`maximum + 1` work items it exits with starvation when the bounded wait
expires empty, and exits when a sentinel is taken while the executor is
absent or shutting down; and on a trace of genuine work items of length at
least `maximum + 1` it exits by exhaustion after exactly `maximum + 1`
iterations even though items keep arriving. -/
theorem thread_worker_iteration_budget (timeout maximum self : Nat)
    (executorFinal : Option (Finset Nat)) (jobs : List (WEvent Nat))
    (ws : List Nat) :
    (thread_worker executorFinal jobs timeout maximum self).loop.iterations ≤
      maximum + 1 ∧
    (ws.length < maximum + 1 →
      ((thread_worker executorFinal (ws.map WEvent.item ++ WEvent.timeout :: jobs)
          timeout maximum self).loop.exitReason = ExitReason.starvation ∧
       (thread_worker executorFinal
          (ws.map WEvent.item ++ WEvent.sentinel none :: jobs)
          timeout maximum self).loop.exitReason = ExitReason.sentinelShutdown ∧
       (thread_worker executorFinal
          (ws.map WEvent.item ++ WEvent.sentinel (some true) :: jobs)
          timeout maximum self).loop.exitReason = ExitReason.sentinelShutdown)) ∧
    ((∀ ev ∈ jobs, ∃ w, ev = WEvent.item w) → maximum + 1 ≤ jobs.length →
      (thread_worker executorFinal jobs timeout maximum self).loop.exitReason =
        ExitReason.exhaustion ∧
      (thread_worker executorFinal jobs timeout maximum self).loop.iterations =
        maximum + 1) := by
  refine ⟨workerLoop_iterations_le _ _, ?_, ?_⟩
  · intro hlen
    obtain ⟨k, hk⟩ : ∃ k, maximum + 1 - ws.length = k + 1 :=
      ⟨maximum - ws.length, by omega⟩
    refine ⟨?_, ?_, ?_⟩
    · simp only [thread_worker]
      rw [workerLoop_consumes_items ws (maximum + 1) _ hlen]
      simp [hk, workerLoop]
    · simp only [thread_worker]
      rw [workerLoop_consumes_items ws (maximum + 1) _ hlen]
      simp [hk, workerLoop]
    · simp only [thread_worker]
      rw [workerLoop_consumes_items ws (maximum + 1) _ hlen]
      simp [hk, workerLoop]
  · intro hall hlen
    exact workerLoop_items_exhaustion (maximum + 1) jobs hall hlen

/-- Witness for C8: with the (swapped-in) budget `maximum = 60` and a queue
trace of 61 genuine items, the worker exits by exhaustion after exactly 61
iterations. -/
theorem thread_worker_iteration_budget_witness :
    (thread_worker (none : Option (Finset Nat))
      (List.replicate 61 (WEvent.item 0)) 10 60 0).loop.exitReason =
      ExitReason.exhaustion ∧
    (thread_worker (none : Option (Finset Nat))
      (List.replicate 61 (WEvent.item 0)) 10 60 0).loop.iterations = 61 := by
  have h := (thread_worker_iteration_budget 10 60 0 none
    (List.replicate 61 (WEvent.item 0)) []).2.2
  exact h (by intro ev hev; rw [List.eq_of_mem_replicate hev]; exact ⟨0, rfl⟩)
    (by simp)

/-- C10: `_optimum_workers` divides the queue depth by the configured divisor
with no zero-guard: with `divisor ≥ 1` it is well-defined and bounded by
`max_workers`; with `divisor = 0` — a configuration `DynamicManager.__init__`
accepts without validation — it raises `ZeroDivisionError`, hence so does
every scaling adjustment, and hence every pre-shutdown `submit`. -/
theorem optimum_workers_division_by_zero (e : ScalingPoolExecutor Nat) :
    (1 ≤ e.divisor → ∃ v, e.optimumWorkers = Except.ok v ∧ v ≤ e.max_workers) ∧
    (e.divisor = 0 →
      e.optimumWorkers = Except.error PyError.zeroDivision ∧
      e.adjustThreadCount = Except.error PyError.zeroDivision ∧
      (e.shutdownFlag = false → ∀ x : Nat,
        e.submit x = Except.error (PyError.zeroDivision,
          { e with work_queue := e.work_queue ++ [some x] }))) ∧
    (DynamicManager.init
      { workers := none, divisor := some 0, timeout := none }).divisor = 0 := by
  refine ⟨?_, ?_, rfl⟩
  · intro h
    have hd0 : ¬ e.divisor = 0 := by omega
    exact ⟨min e.max_workers (ceilDiv e.work_queue.length e.divisor),
      by simp [ScalingPoolExecutor.optimumWorkers, hd0], Nat.min_le_left _ _⟩
  · intro hd
    refine ⟨?_, ?_, ?_⟩
    · simp [ScalingPoolExecutor.optimumWorkers, hd]
    · simp [ScalingPoolExecutor.adjustThreadCount,
        ScalingPoolExecutor.optimumWorkers, hd]
    · intro hs x
      simp [ScalingPoolExecutor.submit, ScalingPoolExecutor.adjustThreadCount,
        ScalingPoolExecutor.optimumWorkers, hs, hd]

/-- Witness for C10: the executor built from the accepted `divisor = 0`
configuration raises on `_optimum_workers`, while the default configuration
yields a well-defined optimum bounded by `max_workers`. -/
theorem optimum_workers_division_by_zero_witness :
    exDivZero.divisor = 0 ∧
    exDivZero.optimumWorkers = Except.error PyError.zeroDivision ∧
    ∃ v, exBase.optimumWorkers = Except.ok v ∧ v ≤ exBase.max_workers := by
  refine ⟨rfl, ((optimum_workers_division_by_zero exDivZero).2.1 rfl).1, ?_⟩
  exact (optimum_workers_division_by_zero exBase).1 (by decide)

/-- Counterexample for C7: in the step sequence of `_spawn` on a concrete
executor, no registration of the worker into the live-worker set precedes the
`t.start()` step, so the spawned thread is not registered before it is
allowed to run. -/
theorem spawn_registration_before_start_cex :
    ¬ registeredBeforeStart exBase.spawnSteps := by
  unfold registeredBeforeStart
  decide

/-- C7 amended: `_spawn` starts the worker thread first and only then
registers it into the live-worker set; the registration does occur under the
management lock (between the lock acquire and release steps), but after
`t.start()`, so the thread may execute the worker loop before it is
registered. -/
theorem spawn_starts_thread_before_registration (e : ScalingPoolExecutor Nat) :
    startedBeforeRegistration e.spawnSteps ∧
    e.spawnSteps.get? 0 = some (SpawnStep.threadCreate e.divisor e.timeout) ∧
    e.spawnSteps.get? 1 = some SpawnStep.threadStart ∧
    e.spawnSteps.get? 2 = some SpawnStep.lockAcquire ∧
    e.spawnSteps.get? 3 = some SpawnStep.registerThread ∧
    e.spawnSteps.get? 4 = some SpawnStep.lockRelease ∧
    ¬ registeredBeforeStart e.spawnSteps := by
  refine ⟨⟨⟨1, by norm_num [ScalingPoolExecutor.spawnSteps]⟩,
    ⟨3, by norm_num [ScalingPoolExecutor.spawnSteps]⟩, by norm_num, rfl, rfl⟩,
    rfl, rfl, rfl, rfl, rfl, ?_⟩
  rintro ⟨⟨iv, hi⟩, ⟨jv, hj⟩, hij, hreg, hstart⟩
  have hi5 : iv < 5 := hi
  have hj5 : jv < 5 := hj
  interval_cases iv <;> interval_cases jv <;>
    simp_all [ScalingPoolExecutor.spawnSteps, List.get]

/-- Witness for C7 amended, at the default executor. -/
theorem spawn_starts_thread_before_registration_witness :
    startedBeforeRegistration exBase.spawnSteps :=
  (spawn_starts_thread_before_registration exBase).1
